import Mathlib

/-!
Shallow embedding of the UPSC exam-preparation backend (Express + Prisma,
TypeScript) and verification of its specification claims.

Conventions of the embedding:
* JavaScript numbers that carry fractional values (scores, accuracy) are
  modelled as rationals `ℚ`; `Math.round` is Mathlib `round` (half toward +∞,
  which agrees with JavaScript on all inputs).
* JavaScript truthiness on optional values is made explicit: an absent value,
  the number 0 and the empty string are falsy (`jsOrNat`, `jsOrStr`,
  `jsSelected`).
* Dates normalised with `setHours(0,0,0,0)` are modelled at day granularity as
  integers; "yesterday" of day `d` is `d - 1`.
* Database tables reached through a unique key are modelled as lists of rows;
  `findUnique` is `List.find?` on the key and `upsert` updates the matching
  rows in place or appends the freshly created row.
-/

namespace Upsc

/-- JavaScript `a || d` for an optional number `a`: `0`, like an absent
value, is falsy and falls through to the default. -/
def jsOrNat (a : Option Nat) (d : Nat) : Nat :=
  match a with
  | none => d
  | some n => if n = 0 then d else n

/-- JavaScript `a || d` for an optional string `a`: the empty string, like an
absent value, is falsy and falls through to the default. -/
def jsOrStr (a : Option String) (d : String) : String :=
  match a with
  | none => d
  | some s => if s = "" then d else s

/-- JavaScript `x || null` on an optional selected option: an absent answer or
an empty-string selection both become `null` (modelled `none`). -/
def jsSelected (a : Option String) : Option String :=
  match a with
  | none => none
  | some s => if s = "" then none else some s

/-! ### Mock tests (`pricing.controller.ts`: `generateTest`, `submitTest`) -/

/-- A `MockTestQuestion` row, with the fields `submitTest` reads. -/
structure MockTestQuestion where
  id : Nat
  questionNum : Nat
  subject : String
  correctOption : String
deriving DecidableEq, Repr

/-- A `MockTest` row together with its included `questions` relation, as
`submitTest` loads it. -/
structure MockTest where
  questionCount : Nat
  totalMarks : Nat
  questions : List MockTestQuestion
deriving DecidableEq, Repr

/-- The running tallies of `submitTest`'s grading loop. -/
structure TestCounts where
  correct : Nat
  wrong : Nat
  skipped : Nat
deriving DecidableEq, Repr

/-- One pass of `submitTest`'s `for (const q of test.questions)` loop:
`selected = answers?.[q.id] || null`; no selection is a skip, a selection
equal to `correctOption` is correct, anything else is wrong. -/
def submitTestLoop (answers : Nat → Option String) :
    List MockTestQuestion → TestCounts → TestCounts
  | [], acc => acc
  | q :: rest, acc =>
    match jsSelected (answers q.id) with
    | none => submitTestLoop answers rest { acc with skipped := acc.skipped + 1 }
    | some s =>
      if s = q.correctOption then
        submitTestLoop answers rest { acc with correct := acc.correct + 1 }
      else
        submitTestLoop answers rest { acc with wrong := acc.wrong + 1 }

/-- `score = correctCount * 2 - wrongCount * 0.66` (raw, before storing). -/
def rawTestScore (correct wrong : Nat) : ℚ :=
  (correct : ℚ) * 2 - (wrong : ℚ) * (66 / 100)

/-- What `submitTest` stores: `Math.max(0, Math.round(score * 10) / 10)`. -/
def storedTestScore (correct wrong : Nat) : ℚ :=
  max 0 ((round (rawTestScore correct wrong * 10) : ℚ) / 10)

/-- The `MockTestAttempt` fields relevant to scoring. -/
structure MockTestAttempt where
  score : ℚ
  totalMarks : Nat
  correctCount : Nat
  wrongCount : Nat
  skippedCount : Nat
deriving DecidableEq, Repr

/-- `submitTest`, reduced to the grading of one loaded test: runs the grading
loop over the loaded questions and stores the clamped, rounded score. -/
def submitTest (test : MockTest) (answers : Nat → Option String) : MockTestAttempt :=
  let c := submitTestLoop answers test.questions ⟨0, 0, 0⟩
  { score := storedTestScore c.correct c.wrong
    totalMarks := test.totalMarks
    correctCount := c.correct
    wrongCount := c.wrong
    skippedCount := c.skipped }

/-- Specification-side count of correctly answered questions: those whose
(truthy) selection equals the correct option. -/
def specCorrect (answers : Nat → Option String) (qs : List MockTestQuestion) : Nat :=
  (qs.filter fun q => jsSelected (answers q.id) = some q.correctOption).length

/-- Specification-side count of wrongly answered questions: those with a
(truthy) selection different from the correct option. -/
def specWrong (answers : Nat → Option String) (qs : List MockTestQuestion) : Nat :=
  (qs.filter fun q =>
    (jsSelected (answers q.id)).isSome ∧ jsSelected (answers q.id) ≠ some q.correctOption).length

/-- Specification-side count of skipped questions: those with no (truthy)
selection. -/
def specSkipped (answers : Nat → Option String) (qs : List MockTestQuestion) : Nat :=
  (qs.filter fun q => jsSelected (answers q.id) = none).length

/-- `generateTest`'s question count: `Math.min(questionCount || 10, 100)`. -/
def generateTestCount (questionCount : Option Nat) : Nat :=
  min (jsOrNat questionCount 10) 100

/-- `generateTest`'s stored `totalMarks = count * 2`. -/
def generateTestTotalMarks (questionCount : Option Nat) : Nat :=
  generateTestCount questionCount * 2

/-- The `MockTest` row `generateTest` creates, given the random draws for each
question (`pickCorrect i` is `correctOption` of question `i`): `count`
questions numbered `1..count`, `totalMarks = count * 2`. -/
def generateTest (questionCount : Option Nat) (subject : String)
    (pickCorrect : Nat → String) : MockTest :=
  let count := generateTestCount questionCount
  { questionCount := count
    totalMarks := generateTestTotalMarks questionCount
    questions := (List.range count).map fun i =>
      { id := i + 1
        questionNum := i + 1
        subject := subject
        correctOption := pickCorrect (i + 1) } }

/-! ### Streaks (`pricing.controller.ts`: `updateStreak`, `getStreak`;
study-plan controller: `updateStudyStreak`, `getStudyStreak`) -/

/-- A `UserStreak` row (dates at day granularity). -/
structure UserStreak where
  currentStreak : Nat
  longestStreak : Nat
  lastActiveDate : Option Int
deriving DecidableEq, Repr

/-- The `UserStreak` row present after `updateStreak userId` runs on day
`today`, given the row found by `findUnique` (`none` when absent):
no row creates `(1, 1, today)`; `lastActiveDate = today` leaves the row
unchanged; `lastActiveDate = yesterday` increments; otherwise the streak is
reset to 1. `longestStreak` becomes `Math.max(newStreak, longestStreak)`. -/
def updateStreak (today : Int) (existing : Option UserStreak) : UserStreak :=
  match existing with
  | none => { currentStreak := 1, longestStreak := 1, lastActiveDate := some today }
  | some streak =>
    if streak.lastActiveDate = some today then
      streak
    else
      let newStreak :=
        if streak.lastActiveDate = some (today - 1) then streak.currentStreak + 1 else 1
      { currentStreak := newStreak
        longestStreak := max newStreak streak.longestStreak
        lastActiveDate := some today }

/-- A `StudyStreak` row (dates at day granularity). -/
structure StudyStreak where
  currentStreak : Nat
  longestStreak : Nat
  totalStudyDays : Nat
  lastStudyDate : Option Int
deriving DecidableEq, Repr

/-- The `StudyStreak` row present after `updateStudyStreak userId` runs on day
`today`: same consecutive-day rule as `updateStreak`, plus the
`totalStudyDays` tally. -/
def updateStudyStreak (today : Int) (existing : Option StudyStreak) : StudyStreak :=
  match existing with
  | none =>
    { currentStreak := 1, longestStreak := 1, totalStudyDays := 1
      lastStudyDate := some today }
  | some streak =>
    if streak.lastStudyDate = some today then
      streak
    else
      let newStreak :=
        if streak.lastStudyDate = some (today - 1) then streak.currentStreak + 1 else 1
      { currentStreak := newStreak
        longestStreak := max newStreak streak.longestStreak
        totalStudyDays := streak.totalStudyDays + 1
        lastStudyDate := some today }

/-- The zero-initialised `UserStreak` row `getStreak` creates when the user
has none. -/
def getStreakCreate : UserStreak :=
  { currentStreak := 0, longestStreak := 0, lastActiveDate := none }

/-- The zero-initialised `StudyStreak` row `getStudyStreak` creates when the
user has none. -/
def getStudyStreakCreate : StudyStreak :=
  { currentStreak := 0, longestStreak := 0, totalStudyDays := 0, lastStudyDate := none }

/-! ### Unique-keyed tables (Prisma `findUnique` / `upsert`) -/

section Table

variable {Row K : Type} [DecidableEq K]

/-- Prisma `findUnique` on a unique key: the first row whose key matches. -/
def findUniqueRow (key : Row → K) (k : K) (t : List Row) : Option Row :=
  t.find? fun r => key r = k

/-- Prisma `upsert` on a unique key: update the matching row in place when one
exists, otherwise append the freshly created row. -/
def upsertRow (key : Row → K) (k : K) (create : Row) (update : Row → Row)
    (t : List Row) : List Row :=
  if t.any (fun r => key r = k) then
    t.map fun r => if key r = k then update r else r
  else
    t ++ [create]

/-- At most one row per key: all keys in the table are pairwise distinct. -/
def UniqueKeys (key : Row → K) (t : List Row) : Prop :=
  t.Pairwise fun a b => key a ≠ key b

end Table

/-! ### Daily MCQ (`pricing.controller.ts`: `getTodayQuestions`, `submitMCQ`) -/

/-- An `MCQQuestion` row. `options` is the JSON payload of answer options,
kept opaque as a list of strings. -/
structure MCQQuestion where
  id : Nat
  questionNum : Nat
  questionText : String
  category : String
  difficulty : String
  options : List String
  correctOption : String
  explanation : String
deriving DecidableEq, Repr

/-- A `DailyMCQ` row with its included `questions` relation. -/
structure DailyMCQ where
  id : Nat
  timeLimit : Nat
  totalMarks : Nat
  questionCount : Nat
  questions : List MCQQuestion
deriving DecidableEq, Repr

/-- One entry of the `answers` array of `submitMCQ`'s request body. -/
structure AnswerInput where
  questionId : Nat
  selectedOption : Option String
  timeTaken : Option Nat
deriving DecidableEq, Repr

/-- An `MCQAttempt` row (unique key `userId_dailyMcqId`). Topic lists and the
per-question `MCQResponse` rows are not modelled: no claim mentions them. -/
structure MCQAttempt where
  userId : Nat
  dailyMcqId : Nat
  score : ℚ
  totalMarks : Nat
  correctCount : Nat
  wrongCount : Nat
  skippedCount : Nat
  accuracy : ℚ
  timeTaken : Nat
  completedAt : Option Int
deriving DecidableEq, Repr

/-- The unique key `userId_dailyMcqId` of `MCQAttempt`. -/
def mcqAttemptKey (r : MCQAttempt) : Nat × Nat :=
  (r.userId, r.dailyMcqId)

/-- The selection `submitMCQ` grades for question `q`:
`answers?.find(a => a.questionId === q.id)?.selectedOption || null`. -/
def mcqSelected (answers : Option (List AnswerInput)) (q : MCQQuestion) : Option String :=
  jsSelected (((answers.getD []).find? fun a => a.questionId = q.id).bind (·.selectedOption))

/-- `submitMCQ`'s grading loop over `mcq.questions`: no selection is a skip,
a selection equal to `correctOption` is correct, anything else is wrong. -/
def submitMCQLoop (answers : Option (List AnswerInput)) :
    List MCQQuestion → TestCounts → TestCounts
  | [], acc => acc
  | q :: rest, acc =>
    match mcqSelected answers q with
    | none => submitMCQLoop answers rest { acc with skipped := acc.skipped + 1 }
    | some s =>
      if s = q.correctOption then
        submitMCQLoop answers rest { acc with correct := acc.correct + 1 }
      else
        submitMCQLoop answers rest { acc with wrong := acc.wrong + 1 }

/-- A direct `res.status(code).json({status, message})` error response. -/
structure ErrorResponse where
  code : Nat
  status : String
  message : String
deriving DecidableEq, Repr

/-- The response of `submitMCQ`. -/
inductive SubmitMCQResponse where
  | err (e : ErrorResponse)
  | ok (attempt : MCQAttempt)
deriving DecidableEq, Repr

/-- The rounded one-decimal score of a daily-MCQ attempt:
`Math.round(score * 10) / 10` with `score = correctCount * (totalMarks /
questionCount)`. -/
def mcqStoredScore (m : DailyMCQ) (correct : Nat) : ℚ :=
  (round ((correct : ℚ) * ((m.totalMarks : ℚ) / (m.questionCount : ℚ)) * 10) : ℚ) / 10

/-- The rounded one-decimal accuracy of an attempt:
`(correct / totalAnswered) * 100` when anything was answered, else 0. -/
def mcqStoredAccuracy (correct wrong : Nat) : ℚ :=
  (round ((if 0 < correct + wrong
    then (correct : ℚ) / ((correct + wrong : Nat) : ℚ) * 100 else 0) * 10) : ℚ) / 10

/-- The `MCQAttempt` row `submitMCQ`'s upsert creates. -/
def mcqAttemptCreate (userId : Nat) (m : DailyMCQ)
    (answers : Option (List AnswerInput)) (timeTaken : Option Nat) (now : Int) :
    MCQAttempt :=
  let c := submitMCQLoop answers m.questions ⟨0, 0, 0⟩
  { userId := userId
    dailyMcqId := m.id
    score := mcqStoredScore m c.correct
    totalMarks := m.totalMarks
    correctCount := c.correct
    wrongCount := c.wrong
    skippedCount := c.skipped
    accuracy := mcqStoredAccuracy c.correct c.wrong
    timeTaken := jsOrNat timeTaken 0
    completedAt := some now }

/-- The update `submitMCQ`'s upsert applies to an existing attempt row (every
graded field except `totalMarks`, which the update block does not set). -/
def mcqAttemptUpdate (m : DailyMCQ) (answers : Option (List AnswerInput))
    (timeTaken : Option Nat) (now : Int) (r : MCQAttempt) : MCQAttempt :=
  let c := submitMCQLoop answers m.questions ⟨0, 0, 0⟩
  { r with
    score := mcqStoredScore m c.correct
    correctCount := c.correct
    wrongCount := c.wrong
    skippedCount := c.skipped
    accuracy := mcqStoredAccuracy c.correct c.wrong
    timeTaken := jsOrNat timeTaken 0
    completedAt := some now }

/-- `submitMCQ`, as a transition on the `MCQAttempt` table: 404 when no MCQ
exists for today, 400 when the user's attempt is already completed, otherwise
grade, compute score and accuracy, and upsert the attempt row on the
`userId_dailyMcqId` key with `completedAt` set. -/
def submitMCQ (userId : Nat) (mcq : Option DailyMCQ)
    (answers : Option (List AnswerInput)) (timeTaken : Option Nat) (now : Int)
    (attempts : List MCQAttempt) : SubmitMCQResponse × List MCQAttempt :=
  match mcq with
  | none => (.err ⟨404, "error", "No MCQ challenge available for today"⟩, attempts)
  | some m =>
    let existing := findUniqueRow mcqAttemptKey (userId, m.id) attempts
    if (existing.bind (·.completedAt)).isSome then
      (.err ⟨400, "error", "You have already submitted today\'s MCQ"⟩, attempts)
    else
      (.ok (match existing with
            | none => mcqAttemptCreate userId m answers timeTaken now
            | some r => mcqAttemptUpdate m answers timeTaken now r),
        upsertRow mcqAttemptKey (userId, m.id)
          (mcqAttemptCreate userId m answers timeTaken now)
          (mcqAttemptUpdate m answers timeTaken now)
          attempts)

/-- The question shape `getTodayQuestions` selects: only `id`, `questionNum`,
`questionText`, `category`, `difficulty` and `options` — neither
`correctOption` nor `explanation` is representable here. -/
structure PublicMCQQuestion where
  id : Nat
  questionNum : Nat
  questionText : String
  category : String
  difficulty : String
  options : List String
deriving DecidableEq, Repr

/-- The `select` projection of `getTodayQuestions`. -/
def sanitizeMCQQuestion (q : MCQQuestion) : PublicMCQQuestion :=
  { id := q.id
    questionNum := q.questionNum
    questionText := q.questionText
    category := q.category
    difficulty := q.difficulty
    options := q.options }

/-- The success payload of `getTodayQuestions`. -/
structure TodayQuestionsData where
  mcqId : Nat
  timeLimit : Nat
  totalMarks : Nat
  questions : List PublicMCQQuestion
deriving DecidableEq, Repr

/-- The response of `getTodayQuestions`. -/
inductive TodayQuestionsResponse where
  | err (e : ErrorResponse)
  | ok (d : TodayQuestionsData)
deriving DecidableEq, Repr

/-- `getTodayQuestions`: 404 when no MCQ exists for today, otherwise the MCQ
id, time limit, total marks and the sanitized questions. -/
def getTodayQuestions (mcq : Option DailyMCQ) : TodayQuestionsResponse :=
  match mcq with
  | none => .err ⟨404, "error", "No MCQ challenge available for today"⟩
  | some m => .ok ⟨m.id, m.timeLimit, m.totalMarks, m.questions.map sanitizeMCQQuestion⟩

/-! ### Daily mains answers (`dailyAnswer.controller.ts`) -/

/-- A `DailyMainsQuestion` row, with the fields `submitTextAnswer` reads. -/
structure MainsQuestion where
  id : Nat
  subject : String
  marks : Nat
deriving DecidableEq, Repr

/-- A `MainsAttempt` row (unique key `userId_questionId`). -/
structure MainsAttempt where
  id : Nat
  userId : Nat
  questionId : Nat
  answerText : Option String
  wordCount : Nat
  submittedAt : Int
deriving DecidableEq, Repr

/-- The unique key `userId_questionId` of `MainsAttempt`. -/
def mainsAttemptKey (r : MainsAttempt) : Nat × Nat :=
  (r.userId, r.questionId)

/-- A `MainsEvaluation` row (unique key `attemptId`). Feedback lists are not
modelled: no claim mentions them. -/
structure MainsEvaluation where
  attemptId : Nat
  score : ℚ
  maxScore : Nat
  status : String
  evaluatedAt : Option Int
deriving DecidableEq, Repr

/-- A `UserActivity` row. -/
structure Activity where
  userId : Nat
  type : String
  title : String
  description : String
deriving DecidableEq, Repr

/-- The tables `submitTextAnswer` touches. -/
structure MainsDB where
  attempts : List MainsAttempt
  evaluations : List MainsEvaluation
  activities : List Activity
deriving DecidableEq, Repr

/-- JavaScript `String.prototype.trim`: strip whitespace from both ends
(written over the character list so it evaluates by kernel reduction). -/
def jsTrim (s : String) : String :=
  String.mk (((s.data.dropWhile Char.isWhitespace).reverse.dropWhile
    Char.isWhitespace).reverse)

/-- The validation test of `submitTextAnswer`:
`!answerText || answerText.trim().length === 0` — an absent body field, the
empty string and a whitespace-only string all fail. -/
def invalidAnswerText (answerText : Option String) : Bool :=
  match answerText with
  | none => true
  | some s => jsTrim s = ""

/-- Maximal whitespace-free runs of a character list (`inWord` tells whether
the previous character was inside a run). -/
def countWordsAux : List Char → Bool → Nat
  | [], _ => 0
  | c :: cs, inWord =>
    if c.isWhitespace then countWordsAux cs false
    else (if inWord then 0 else 1) + countWordsAux cs true

/-- `answerText.trim().split(/\s+/).length`: the number of maximal
whitespace-free fragments of the trimmed answer. -/
def mainsWordCount (s : String) : Nat :=
  countWordsAux (jsTrim s).data false

/-- The evaluation record after `startEvaluation`'s upsert on `attemptId`:
created in status `"evaluating"` with score 0 and `maxScore` the question's
marks, or reset to status `"evaluating"` when one exists. -/
def startEvaluationRecord (attemptId : Nat) (marks : Nat) :
    Option MainsEvaluation → MainsEvaluation
  | none =>
    { attemptId := attemptId, score := 0, maxScore := marks
      status := "evaluating", evaluatedAt := none }
  | some r => { r with status := "evaluating" }

/-- The evaluation record after the delayed timer callback fires: score
filled in, status `"completed"`, `evaluatedAt` stamped. -/
def completeEvaluationRecord (score : ℚ) (now : Int) (r : MainsEvaluation) :
    MainsEvaluation :=
  { r with score := score, status := "completed", evaluatedAt := some now }

/-- `startEvaluation` on the `MainsEvaluation` table: upsert on `attemptId`. -/
def startEvaluationUpsert (attemptId : Nat) (marks : Nat)
    (evals : List MainsEvaluation) : List MainsEvaluation :=
  upsertRow MainsEvaluation.attemptId attemptId
    (startEvaluationRecord attemptId marks none)
    (fun r => { r with status := "evaluating" })
    evals

/-- The response of `submitTextAnswer`. -/
inductive SubmitAnswerResponse where
  | err (e : ErrorResponse)
  | ok (attemptId : Nat) (status : String)
deriving DecidableEq, Repr

/-- The `MainsAttempt` row `submitTextAnswer`'s upsert creates. -/
def mainsAttemptCreate (userId : Nat) (q : MainsQuestion) (s : String)
    (freshId : Nat) (now : Int) : MainsAttempt :=
  { id := freshId, userId := userId, questionId := q.id
    answerText := some s, wordCount := mainsWordCount s, submittedAt := now }

/-- The update `submitTextAnswer`'s upsert applies to an existing attempt. -/
def mainsAttemptUpdate (s : String) (now : Int) (r : MainsAttempt) : MainsAttempt :=
  { r with answerText := some s, wordCount := mainsWordCount s, submittedAt := now }

/-- `submitTextAnswer`, as a transition on the mains tables: 400 on a missing
or blank `answerText` (before any query), 404 when no question exists for
today; otherwise upsert the attempt on `userId_questionId`, start the
evaluation, and log the activity. `freshId` is the id the store would mint
for a newly created attempt row. -/
def submitTextAnswer (userId : Nat) (answerText : Option String)
    (question : Option MainsQuestion) (freshId : Nat) (now : Int)
    (db : MainsDB) : SubmitAnswerResponse × MainsDB :=
  if invalidAnswerText answerText then
    (.err ⟨400, "error", "Answer text is required"⟩, db)
  else
    match question with
    | none => (.err ⟨404, "error", "No mains question for today"⟩, db)
    | some q =>
      let s := answerText.getD ""
      let existing := findUniqueRow mainsAttemptKey (userId, q.id) db.attempts
      let attempt :=
        match existing with
        | none => mainsAttemptCreate userId q s freshId now
        | some r => mainsAttemptUpdate s now r
      (.ok attempt.id "evaluating",
        { attempts := upsertRow mainsAttemptKey (userId, q.id)
            (mainsAttemptCreate userId q s freshId now)
            (mainsAttemptUpdate s now) db.attempts
          evaluations := startEvaluationUpsert attempt.id q.marks db.evaluations
          activities := db.activities ++
            [⟨userId, "answer", "Submitted Daily Answer",
              q.subject ++ " - " ++ toString (mainsWordCount s) ++ " words"⟩] })

/-- The success payload of `getEvaluationStatus`. -/
structure EvaluationStatusData where
  attemptId : Nat
  evaluationStatus : String
  isComplete : Bool
deriving DecidableEq, Repr

/-- `getEvaluationStatus`'s payload for a found attempt with its included
evaluation: `evaluationStatus = attempt.evaluation?.status || "pending"` and
`isComplete = attempt.evaluation?.status === "completed"`. -/
def getEvaluationStatus (attempt : MainsAttempt)
    (evaluation : Option MainsEvaluation) : EvaluationStatusData :=
  { attemptId := attempt.id
    evaluationStatus := jsOrStr (evaluation.map (·.status)) "pending"
    isComplete := decide (evaluation.map (·.status) = some "completed") }

/-! ### The evaluation lifecycle as a transition system (claim C5)

One attempt's evaluation record together with the number of delayed callbacks
scheduled and not yet fired. A submission runs `startEvaluation` (which
schedules exactly one callback); a callback fire runs the timer body. -/

/-- One attempt's evaluation record plus the not-yet-fired callbacks
scheduled for it. -/
structure EvalTraceState where
  record : Option MainsEvaluation
  pendingTimers : Nat
deriving DecidableEq, Repr

/-- The events that touch the evaluation status: a (re)submission of the
answer, and the delayed one-shot callback firing. -/
inductive EvalOp where
  | submit (attemptId : Nat) (marks : Nat)
  | fire (score : ℚ) (now : Int)
deriving DecidableEq, Repr

/-- The step function of the evaluation lifecycle. A fire without a scheduled
callback, or without a record, cannot happen (`none`). -/
def evalStep : EvalOp → EvalTraceState → Option EvalTraceState
  | .submit attemptId marks, s =>
    some ⟨some (startEvaluationRecord attemptId marks s.record), s.pendingTimers + 1⟩
  | .fire score now, s =>
    match s.record, s.pendingTimers with
    | some r, n + 1 => some ⟨some (completeEvaluationRecord score now r), n⟩
    | _, _ => none

/-- Running a list of events from a state. -/
def evalTrace : List EvalOp → EvalTraceState → Option EvalTraceState
  | [], s => some s
  | op :: ops, s =>
    match evalStep op s with
    | none => none
    | some s' => evalTrace ops s'

/-- The status an evaluation state exposes (`none` when no record exists,
reported as `"pending"`). -/
def evalStateStatus (s : EvalTraceState) : Option String :=
  s.record.map (·.status)

/-- The position of a status along pending → evaluating → completed. -/
def statusRank : Option String → Nat
  | none => 0
  | some s => if s = "completed" then 2 else if s = "evaluating" then 1 else 0

/-- The number of `submit` events in a trace. -/
def countSubmits (ops : List EvalOp) : Nat :=
  (ops.filter fun op => match op with | .submit _ _ => true | .fire _ _ => false).length

/-- The number of `fire` events in a trace. -/
def countFires (ops : List EvalOp) : Nat :=
  (ops.filter fun op => match op with | .submit _ _ => false | .fire _ _ => true).length

/-! ### Centralized error handler (`middleware/errorHandler.ts`) -/

/-- An `AppError`: `Error` plus the optional `statusCode` and `status`. -/
structure AppError where
  statusCode : Option Nat
  status : Option String
  message : String
deriving DecidableEq, Repr

/-- `errorHandler`: `statusCode = err.statusCode || 500`,
`status = err.status || "error"`, body `{status, message: err.message}`. -/
def errorHandler (err : AppError) : ErrorResponse :=
  { code := jsOrNat err.statusCode 500
    status := jsOrStr err.status "error"
    message := err.message }

/-! ### Sequences of submissions (claim C4) -/

/-- A submission hitting one of the daily-item attempt tables. -/
inductive SubmitOp where
  | mcq (userId : Nat) (mcqToday : Option DailyMCQ) (answers : Option (List AnswerInput))
      (timeTaken : Option Nat) (now : Int)
  | text (userId : Nat) (answerText : Option String) (question : Option MainsQuestion)
      (freshId : Nat) (now : Int)

/-- The two attempt tables the submit handlers write. -/
structure BackendState where
  mcqAttempts : List MCQAttempt
  mains : MainsDB
deriving Repr

/-- The state reached after one submission. -/
def applySubmitOp : SubmitOp → BackendState → BackendState
  | .mcq u m a t now, s => { s with mcqAttempts := (submitMCQ u m a t now s.mcqAttempts).2 }
  | .text u a q fid now, s => { s with mains := (submitTextAnswer u a q fid now s.mains).2 }

/-- The state reached after a sequence of submissions. -/
def applySubmitOps : List SubmitOp → BackendState → BackendState
  | [], s => s
  | op :: ops, s => applySubmitOps ops (applySubmitOp op s)

/-! ### Helper lemmas -/

section TableLemmas

variable {Row K : Type} [DecidableEq K]
variable {key : Row → K} {k : K} {create : Row} {update : Row → Row}

theorem upsertRow_cons_ne {r : Row} {t : List Row} (h : ¬ key r = k) :
    upsertRow key k create update (r :: t) = r :: upsertRow key k create update t := by
  unfold upsertRow
  by_cases ht : t.any (fun r => key r = k)
  · simp [ht, h]
  · simp [ht, h]

theorem key_of_updated (hu : ∀ r, key (update r) = key r) (r : Row) :
    key (if key r = k then update r else r) = key r := by
  by_cases h1 : key r = k <;> simp [h1, hu]

theorem upsertRow_uniqueKeys (key : Row → K) (k : K) (create : Row)
    (update : Row → Row)
    (hc : key create = k) (hu : ∀ r, key (update r) = key r)
    {t : List Row} (h : UniqueKeys key t) :
    UniqueKeys key (upsertRow key k create update t) := by
  unfold upsertRow
  by_cases ha : t.any (fun r => key r = k)
  · rw [if_pos ha]
    refine List.Pairwise.map _ (fun a b hab => ?_) h
    rw [key_of_updated hu, key_of_updated hu]
    exact hab
  · rw [if_neg ha]
    rw [UniqueKeys, List.pairwise_append]
    refine ⟨h, List.pairwise_singleton _ _, fun a hat b hbc => ?_⟩
    simp only [List.mem_singleton] at hbc
    subst hbc
    rw [hc]
    simp only [List.any_eq_true, decide_eq_true_eq, not_exists] at ha
    exact fun hak => (ha a) ⟨hat, hak⟩

theorem findUniqueRow_upsertRow (key : Row → K) (k : K) (create : Row)
    (update : Row → Row) (hc : key create = k) (hu : ∀ r, key (update r) = key r)
    (t : List Row) :
    findUniqueRow key k (upsertRow key k create update t) =
      some (match findUniqueRow key k t with
            | none => create
            | some r => update r) := by
  induction t with
  | nil =>
    simp [upsertRow, findUniqueRow, List.find?, hc]
  | cons r t ih =>
    by_cases hk : key r = k
    · have hany : (r :: t).any (fun x => key x = k) = true := by
        simp [List.any_cons, hk]
      rw [upsertRow, if_pos hany, List.map_cons, if_pos hk]
      rw [findUniqueRow, List.find?_cons_of_pos _ (by simp [hu, hk]),
        findUniqueRow, List.find?_cons_of_pos _ (by simp [hk])]
    · rw [upsertRow_cons_ne hk]
      rw [findUniqueRow, List.find?_cons_of_neg _ (by simp [hk]),
        findUniqueRow, List.find?_cons_of_neg _ (by simp [hk])]
      exact ih

end TableLemmas

theorem submitTestLoop_eq_spec (answers : Nat → Option String)
    (qs : List MockTestQuestion) (acc : TestCounts) :
    submitTestLoop answers qs acc =
      ⟨acc.correct + specCorrect answers qs,
       acc.wrong + specWrong answers qs,
       acc.skipped + specSkipped answers qs⟩ := by
  induction qs generalizing acc with
  | nil => simp [submitTestLoop, specCorrect, specWrong, specSkipped]
  | cons q qs ih =>
    rcases hsel : jsSelected (answers q.id) with _ | s
    · have h1 : specCorrect answers (q :: qs) = specCorrect answers qs := by
        simp [specCorrect, List.filter_cons, hsel]
      have h2 : specWrong answers (q :: qs) = specWrong answers qs := by
        simp [specWrong, List.filter_cons, hsel]
      have h3 : specSkipped answers (q :: qs) = specSkipped answers qs + 1 := by
        simp [specSkipped, List.filter_cons, hsel]
      simp only [submitTestLoop, hsel, ih, h1, h2, h3, TestCounts.mk.injEq, true_and,
        and_true]
      omega
    · by_cases hco : s = q.correctOption
      · have h1 : specCorrect answers (q :: qs) = specCorrect answers qs + 1 := by
          simp [specCorrect, List.filter_cons, hsel, hco]
        have h2 : specWrong answers (q :: qs) = specWrong answers qs := by
          simp [specWrong, List.filter_cons, hsel, hco]
        have h3 : specSkipped answers (q :: qs) = specSkipped answers qs := by
          simp [specSkipped, List.filter_cons, hsel]
        simp only [submitTestLoop, hsel, if_pos hco, ih, h1, h2, h3, TestCounts.mk.injEq,
          true_and, and_true]
        omega
      · have h1 : specCorrect answers (q :: qs) = specCorrect answers qs := by
          simp [specCorrect, List.filter_cons, hsel, hco]
        have h2 : specWrong answers (q :: qs) = specWrong answers qs + 1 := by
          simp [specWrong, List.filter_cons, hsel, hco]
        have h3 : specSkipped answers (q :: qs) = specSkipped answers qs := by
          simp [specSkipped, List.filter_cons, hsel]
        simp only [submitTestLoop, hsel, if_neg hco, ih, h1, h2, h3, TestCounts.mk.injEq,
          true_and, and_true]
        omega

theorem round_mono_rat {x y : ℚ} (h : x ≤ y) : round x ≤ round y := by
  rw [round_eq, round_eq]
  exact Int.floor_le_floor (by linarith)

theorem specCorrect_le_length (answers : Nat → Option String)
    (qs : List MockTestQuestion) : specCorrect answers qs ≤ qs.length :=
  List.length_filter_le _ _

theorem storedTestScore_nonneg (c w : Nat) : 0 ≤ storedTestScore c w :=
  le_max_left 0 _

theorem storedTestScore_le (c w L : Nat) (hcL : c ≤ L) :
    storedTestScore c w ≤ ((2 * L : Nat) : ℚ) := by
  unfold storedTestScore
  apply max_le (by positivity)
  have hraw : rawTestScore c w * 10 ≤ ((20 * c : Nat) : ℚ) := by
    unfold rawTestScore
    push_cast
    nlinarith [Nat.cast_nonneg (α := ℚ) w]
  have hround : round (rawTestScore c w * 10) ≤ ((20 * c : Nat) : ℤ) := by
    have h := round_mono_rat hraw
    rwa [round_natCast] at h
  calc ((round (rawTestScore c w * 10) : ℤ) : ℚ) / 10
      ≤ ((20 * c : Nat) : ℚ) / 10 := by
        gcongr
        exact_mod_cast hround
    _ ≤ ((2 * L : Nat) : ℚ) := by
        rw [div_le_iff₀ (by norm_num)]
        push_cast
        have : (c : ℚ) ≤ (L : ℚ) := by exact_mod_cast hcL
        nlinarith

/-! ## Claims -/

/-- Claim C1, amended: for every mock-test submission, `correctCount`,
`wrongCount` and `skippedCount` are the numbers of correctly answered,
wrongly answered and unanswered questions, and the stored score is the
correct-minus-penalty total `2 * correct - 0.66 * wrong` rounded to one
decimal place (half up) and clamped below at 0 — not that raw total itself.
Skipped questions contribute nothing. -/
theorem submitTest_score_correct_minus_penalty (test : MockTest)
    (answers : Nat → Option String) :
    (submitTest test answers).correctCount = specCorrect answers test.questions ∧
    (submitTest test answers).wrongCount = specWrong answers test.questions ∧
    (submitTest test answers).skippedCount = specSkipped answers test.questions ∧
    (submitTest test answers).score =
      max 0 ((round (((specCorrect answers test.questions : ℚ) * 2 -
          (specWrong answers test.questions : ℚ) * (66 / 100)) * 10) : ℚ) / 10) := by
  have h := submitTestLoop_eq_spec answers test.questions ⟨0, 0, 0⟩
  refine ⟨?_, ?_, ?_, ?_⟩ <;>
    simp [submitTest, h, storedTestScore, rawTestScore]

/-- Claim C1, witness for the amended statement at a concrete submission. -/
theorem submitTest_score_correct_minus_penalty_witness :
    (submitTest ⟨2, 4, [⟨1, 1, "History", "A"⟩, ⟨2, 2, "History", "A"⟩]⟩
        (fun i => if i = 1 then some "A" else if i = 2 then some "B" else none)).score =
      max 0 ((round (((specCorrect
          (fun i => if i = 1 then some "A" else if i = 2 then some "B" else none)
          [⟨1, 1, "History", "A"⟩, ⟨2, 2, "History", "A"⟩] : ℚ) * 2 -
        (specWrong
          (fun i => if i = 1 then some "A" else if i = 2 then some "B" else none)
          [⟨1, 1, "History", "A"⟩, ⟨2, 2, "History", "A"⟩] : ℚ) * (66 / 100)) * 10) : ℚ) / 10) :=
  (submitTest_score_correct_minus_penalty _ _).2.2.2

/-- Claim C1, counterexample to the claim as stated: with one correct and one
wrong answer the stored score is 1.3, while `2 * 1 - 0.66 * 1 = 1.34`, and
with a single wrong answer the stored score is 0, while the raw total is
`-0.66`; the stored score does not equal the raw correct-minus-penalty
total — it is that total rounded to one decimal and clamped at 0. -/
theorem submitTest_score_not_raw_formula :
    (submitTest ⟨1, 2, [⟨1, 1, "History", "A"⟩]⟩ (fun _ => some "B")).correctCount = 0 ∧
    (submitTest ⟨1, 2, [⟨1, 1, "History", "A"⟩]⟩ (fun _ => some "B")).wrongCount = 1 ∧
    (submitTest ⟨1, 2, [⟨1, 1, "History", "A"⟩]⟩ (fun _ => some "B")).score = 0 ∧
    (submitTest ⟨1, 2, [⟨1, 1, "History", "A"⟩]⟩ (fun _ => some "B")).score ≠
      (0 : ℚ) * 2 - (1 : ℚ) * (66 / 100) ∧
    (submitTest ⟨2, 4, [⟨1, 1, "History", "A"⟩, ⟨2, 2, "History", "A"⟩]⟩
        (fun i => if i = 1 then some "A" else if i = 2 then some "B" else none)).correctCount
        = 1 ∧
    (submitTest ⟨2, 4, [⟨1, 1, "History", "A"⟩, ⟨2, 2, "History", "A"⟩]⟩
        (fun i => if i = 1 then some "A" else if i = 2 then some "B" else none)).wrongCount
        = 1 ∧
    (submitTest ⟨2, 4, [⟨1, 1, "History", "A"⟩, ⟨2, 2, "History", "A"⟩]⟩
        (fun i => if i = 1 then some "A" else if i = 2 then some "B" else none)).score =
      13 / 10 ∧
    (submitTest ⟨2, 4, [⟨1, 1, "History", "A"⟩, ⟨2, 2, "History", "A"⟩]⟩
        (fun i => if i = 1 then some "A" else if i = 2 then some "B" else none)).score ≠
      (1 : ℚ) * 2 - (1 : ℚ) * (66 / 100) := by
  have hl := submitTestLoop_eq_spec
    (fun i => if i = 1 then some "A" else if i = 2 then some "B" else none)
    [⟨1, 1, "History", "A"⟩, ⟨2, 2, "History", "A"⟩] ⟨0, 0, 0⟩
  have hc : specCorrect
      (fun i => if i = 1 then some "A" else if i = 2 then some "B" else none)
      [⟨1, 1, "History", "A"⟩, ⟨2, 2, "History", "A"⟩] = 1 := by decide
  have hw : specWrong
      (fun i => if i = 1 then some "A" else if i = 2 then some "B" else none)
      [⟨1, 1, "History", "A"⟩, ⟨2, 2, "History", "A"⟩] = 1 := by decide
  have hscore : (submitTest ⟨2, 4, [⟨1, 1, "History", "A"⟩, ⟨2, 2, "History", "A"⟩]⟩
      (fun i => if i = 1 then some "A" else if i = 2 then some "B" else none)).score =
      storedTestScore 1 1 := by
    simp [submitTest, hl, hc, hw]
  have h1310 : storedTestScore 1 1 = 13 / 10 := by
    norm_num [storedTestScore, rawTestScore, round_eq]
  have hl2 := submitTestLoop_eq_spec (fun _ => some "B")
    [⟨1, 1, "History", "A"⟩] ⟨0, 0, 0⟩
  have hc2 : specCorrect (fun _ => some "B") [⟨1, 1, "History", "A"⟩] = 0 := by decide
  have hw2 : specWrong (fun _ => some "B") [⟨1, 1, "History", "A"⟩] = 1 := by decide
  have hscore2 : (submitTest ⟨1, 2, [⟨1, 1, "History", "A"⟩]⟩
      (fun _ => some "B")).score = storedTestScore 0 1 := by
    simp [submitTest, hl2, hc2, hw2]
  have h0 : storedTestScore 0 1 = 0 := by
    norm_num [storedTestScore, rawTestScore, round_eq]
  refine ⟨by decide, by decide, by rw [hscore2, h0], ?_, by decide, by decide,
    by rw [hscore, h1310], ?_⟩
  · rw [hscore2, h0]
    norm_num
  · rw [hscore, h1310]
    norm_num

/-- Claim C10: the stored mock-test score is at least 0, and at most the
test's `totalMarks` whenever `totalMarks` is twice the question count — which
is how `generateTest` always creates tests. -/
theorem submitTest_score_bounds :
    (∀ (test : MockTest) (answers : Nat → Option String),
        0 ≤ (submitTest test answers).score) ∧
    (∀ (test : MockTest) (answers : Nat → Option String),
        test.totalMarks = 2 * test.questions.length →
        (submitTest test answers).score ≤ (test.totalMarks : ℚ)) ∧
    (∀ (qc : Option Nat) (subject : String) (pick : Nat → String),
        (generateTest qc subject pick).totalMarks =
          2 * (generateTest qc subject pick).questions.length ∧
        (generateTest qc subject pick).totalMarks =
          2 * (generateTest qc subject pick).questionCount) := by
  refine ⟨?_, ?_, ?_⟩
  · intro test answers
    have h := submitTestLoop_eq_spec answers test.questions ⟨0, 0, 0⟩
    simp only [submitTest, h]
    exact storedTestScore_nonneg _ _
  · intro test answers hT
    have h := submitTestLoop_eq_spec answers test.questions ⟨0, 0, 0⟩
    have hb := storedTestScore_le (specCorrect answers test.questions)
      (specWrong answers test.questions) test.questions.length
      (specCorrect_le_length _ _)
    simp only [submitTest, h]
    rw [hT]
    simpa using hb
  · intro qc subject pick
    constructor <;>
      simp [generateTest, generateTestTotalMarks, Nat.mul_comm]

/-- Claim C10, witness at a concrete test and submission. -/
theorem submitTest_score_bounds_witness :
    0 ≤ (submitTest ⟨1, 2, [⟨1, 1, "Polity", "C"⟩]⟩ (fun _ => some "D")).score ∧
    (submitTest ⟨1, 2, [⟨1, 1, "Polity", "C"⟩]⟩ (fun _ => some "D")).score ≤
      ((2 : Nat) : ℚ) ∧
    (generateTest (some 7) "History" (fun _ => "B")).totalMarks =
      2 * (generateTest (some 7) "History" (fun _ => "B")).questions.length :=
  ⟨submitTest_score_bounds.1 _ _,
   by
    have h := submitTest_score_bounds.2.1 ⟨1, 2, [⟨1, 1, "Polity", "C"⟩]⟩
      (fun _ => some "D") (by decide)
    simpa using h,
   (submitTest_score_bounds.2.2 (some 7) "History" (fun _ => "B")).1⟩

/-- Claim C2: for an existing streak record, `updateStreak` and
`updateStudyStreak` increment `currentStreak` by exactly 1 when the recorded
last-active day is yesterday, leave the record unchanged when it is today,
and reset `currentStreak` to 1 in every other case. -/
theorem updateStreak_consecutive_day_rule :
    (∀ (today : Int) (s : UserStreak), s.lastActiveDate = some (today - 1) →
        updateStreak today (some s) =
          ⟨s.currentStreak + 1, max (s.currentStreak + 1) s.longestStreak, some today⟩) ∧
    (∀ (today : Int) (s : UserStreak), s.lastActiveDate = some today →
        updateStreak today (some s) = s) ∧
    (∀ (today : Int) (s : UserStreak), s.lastActiveDate ≠ some today →
        s.lastActiveDate ≠ some (today - 1) →
        updateStreak today (some s) = ⟨1, max 1 s.longestStreak, some today⟩) ∧
    (∀ (today : Int) (s : StudyStreak), s.lastStudyDate = some (today - 1) →
        updateStudyStreak today (some s) =
          ⟨s.currentStreak + 1, max (s.currentStreak + 1) s.longestStreak,
            s.totalStudyDays + 1, some today⟩) ∧
    (∀ (today : Int) (s : StudyStreak), s.lastStudyDate = some today →
        updateStudyStreak today (some s) = s) ∧
    (∀ (today : Int) (s : StudyStreak), s.lastStudyDate ≠ some today →
        s.lastStudyDate ≠ some (today - 1) →
        updateStudyStreak today (some s) =
          ⟨1, max 1 s.longestStreak, s.totalStudyDays + 1, some today⟩) := by
  have hne : ∀ today : Int, ¬ (some (today - 1) = some today) := by
    intro today h
    simp only [Option.some.injEq] at h
    omega
  refine ⟨?_, ?_, ?_, ?_, ?_, ?_⟩
  · intro today s h
    rw [updateStreak, if_neg (by rw [h]; exact hne today), if_pos h]
  · intro today s h
    rw [updateStreak, if_pos h]
  · intro today s h1 h2
    rw [updateStreak, if_neg h1, if_neg h2]
  · intro today s h
    rw [updateStudyStreak, if_neg (by rw [h]; exact hne today), if_pos h]
  · intro today s h
    rw [updateStudyStreak, if_pos h]
  · intro today s h1 h2
    rw [updateStudyStreak, if_neg h1, if_neg h2]

/-- Claim C2, witness at concrete streak records on day 5. -/
theorem updateStreak_consecutive_day_rule_witness :
    updateStreak 5 (some ⟨2, 3, some 4⟩) = ⟨3, 3, some 5⟩ ∧
    updateStreak 5 (some ⟨2, 3, some 5⟩) = ⟨2, 3, some 5⟩ ∧
    updateStreak 5 (some ⟨2, 3, some 2⟩) = ⟨1, 3, some 5⟩ ∧
    updateStudyStreak 5 (some ⟨2, 3, 9, some 4⟩) = ⟨3, 3, 10, some 5⟩ ∧
    updateStudyStreak 5 (some ⟨2, 3, 9, some 5⟩) = ⟨2, 3, 9, some 5⟩ ∧
    updateStudyStreak 5 (some ⟨2, 3, 9, some 2⟩) = ⟨1, 3, 10, some 5⟩ :=
  ⟨updateStreak_consecutive_day_rule.1 5 ⟨2, 3, some 4⟩ rfl,
   updateStreak_consecutive_day_rule.2.1 5 ⟨2, 3, some 5⟩ rfl,
   updateStreak_consecutive_day_rule.2.2.1 5 ⟨2, 3, some 2⟩ (by decide) (by decide),
   updateStreak_consecutive_day_rule.2.2.2.1 5 ⟨2, 3, 9, some 4⟩ rfl,
   updateStreak_consecutive_day_rule.2.2.2.2.1 5 ⟨2, 3, 9, some 5⟩ rfl,
   updateStreak_consecutive_day_rule.2.2.2.2.2 5 ⟨2, 3, 9, some 2⟩ (by decide) (by decide)⟩

/-- Claim C9: every streak write keeps `currentStreak ≤ longestStreak`: the
creations write `(1, 1)` or `(0, 0)`, and the updates set `longestStreak` to
the maximum of the new `currentStreak` and the previous `longestStreak`. -/
theorem streak_writes_current_le_longest :
    (∀ (today : Int) (existing : Option UserStreak),
        (∀ s, existing = some s → s.currentStreak ≤ s.longestStreak) →
        (updateStreak today existing).currentStreak ≤
          (updateStreak today existing).longestStreak) ∧
    (∀ (today : Int) (existing : Option StudyStreak),
        (∀ s, existing = some s → s.currentStreak ≤ s.longestStreak) →
        (updateStudyStreak today existing).currentStreak ≤
          (updateStudyStreak today existing).longestStreak) ∧
    getStreakCreate.currentStreak ≤ getStreakCreate.longestStreak ∧
    getStudyStreakCreate.currentStreak ≤ getStudyStreakCreate.longestStreak := by
  refine ⟨?_, ?_, le_refl 0, le_refl 0⟩
  · intro today existing h
    match existing with
    | none => exact le_refl 1
    | some s =>
      rw [updateStreak]
      by_cases ht : s.lastActiveDate = some today
      · rw [if_pos ht]
        exact h s rfl
      · rw [if_neg ht]
        exact le_max_left _ _
  · intro today existing h
    match existing with
    | none => exact le_refl 1
    | some s =>
      rw [updateStudyStreak]
      by_cases ht : s.lastStudyDate = some today
      · rw [if_pos ht]
        exact h s rfl
      · rw [if_neg ht]
        exact le_max_left _ _

/-- Claim C9, witness at concrete records. -/
theorem streak_writes_current_le_longest_witness :
    (updateStreak 5 (some ⟨7, 7, some 4⟩)).currentStreak ≤
      (updateStreak 5 (some ⟨7, 7, some 4⟩)).longestStreak ∧
    (updateStudyStreak 5 none).currentStreak ≤
      (updateStudyStreak 5 none).longestStreak :=
  ⟨streak_writes_current_le_longest.1 5 (some ⟨7, 7, some 4⟩)
      (fun s hs => by cases hs; exact le_refl 7),
   streak_writes_current_le_longest.2.1 5 none (fun s hs => by cases hs)⟩

/-- Claim C6, counterexample to the claim as stated: an error whose
`statusCode` field is set to 0 is answered with HTTP 500, not with its
`statusCode`, because `err.statusCode || 500` treats 0 as falsy. -/
theorem errorHandler_statusCode_zero_gives_500 :
    (⟨some 0, none, "boom"⟩ : AppError).statusCode = some 0 ∧
    errorHandler ⟨some 0, none, "boom"⟩ =
      { code := 500, status := "error", message := "boom" } ∧
    (500 : Nat) ≠ 0 := by
  refine ⟨rfl, rfl, by decide⟩

/-- Claim C6, amended: the response status code equals the error's
`statusCode` when it is set to a nonzero value and is 500 otherwise (the
JavaScript `||` treats 0 as unset); likewise the envelope's `status` is the
error's `status` when set and nonempty and `"error"` otherwise, and
`message` is always the error's message. -/
theorem errorHandler_envelope (err : AppError) :
    (∀ n, err.statusCode = some n → n ≠ 0 → (errorHandler err).code = n) ∧
    (err.statusCode = none ∨ err.statusCode = some 0 → (errorHandler err).code = 500) ∧
    (∀ s, err.status = some s → s ≠ "" → (errorHandler err).status = s) ∧
    (err.status = none ∨ err.status = some "" → (errorHandler err).status = "error") ∧
    (errorHandler err).message = err.message := by
  refine ⟨?_, ?_, ?_, ?_, rfl⟩
  · intro n hn hnz
    simp [errorHandler, jsOrNat, hn, hnz]
  · intro h
    rcases h with h | h <;> simp [errorHandler, jsOrNat, h]
  · intro s hs hne
    simp [errorHandler, jsOrStr, hs, hne]
  · intro h
    rcases h with h | h <;> simp [errorHandler, jsOrStr, h]

/-- Claim C6, witness at a concrete error carrying both optional fields. -/
theorem errorHandler_envelope_witness :
    (errorHandler ⟨some 404, some "fail", "nope"⟩).code = 404 ∧
    (errorHandler ⟨none, none, "nope"⟩).code = 500 ∧
    (errorHandler ⟨some 404, some "fail", "nope"⟩).status = "fail" ∧
    (errorHandler ⟨none, none, "nope"⟩).status = "error" ∧
    (errorHandler ⟨some 404, some "fail", "nope"⟩).message = "nope" :=
  ⟨(errorHandler_envelope ⟨some 404, some "fail", "nope"⟩).1 404 rfl (by decide),
   (errorHandler_envelope ⟨none, none, "nope"⟩).2.1 (Or.inl rfl),
   (errorHandler_envelope ⟨some 404, some "fail", "nope"⟩).2.2.1 "fail" rfl (by decide),
   (errorHandler_envelope ⟨none, none, "nope"⟩).2.2.2.1 (Or.inl rfl),
   (errorHandler_envelope ⟨some 404, some "fail", "nope"⟩).2.2.2.2⟩

/-- Claim C7: a `submitTextAnswer` call whose `answerText` is missing, empty
or whitespace-only returns HTTP 400 with the error envelope and leaves every
table untouched — no attempt, evaluation or activity row is created or
modified. -/
theorem submitTextAnswer_invalid_rejected_no_write
    (userId : Nat) (answerText : Option String) (question : Option MainsQuestion)
    (freshId : Nat) (now : Int) (db : MainsDB)
    (h : invalidAnswerText answerText = true) :
    submitTextAnswer userId answerText question freshId now db =
      (.err ⟨400, "error", "Answer text is required"⟩, db) := by
  rw [submitTextAnswer.eq_def, if_pos h]

/-- Claim C7, witness: a whitespace-only answer against a nonempty database. -/
theorem submitTextAnswer_invalid_rejected_no_write_witness :
    submitTextAnswer 1 (some "   ") (some ⟨3, "Polity", 15⟩) 9 100
        ⟨[⟨8, 1, 3, some "old", 1, 50⟩], [⟨8, 0, 15, "evaluating", none⟩], []⟩ =
      (.err ⟨400, "error", "Answer text is required"⟩,
        ⟨[⟨8, 1, 3, some "old", 1, 50⟩], [⟨8, 0, 15, "evaluating", none⟩], []⟩) :=
  submitTextAnswer_invalid_rejected_no_write 1 (some "   ") (some ⟨3, "Polity", 15⟩)
    9 100 ⟨[⟨8, 1, 3, some "old", 1, 50⟩], [⟨8, 0, 15, "evaluating", none⟩], []⟩
    (by decide)

/-- Two MCQ questions that agree on every field `getTodayQuestions` selects
and may differ only in `correctOption` and `explanation`. -/
def VisibleEq (q1 q2 : MCQQuestion) : Prop :=
  q1.id = q2.id ∧ q1.questionNum = q2.questionNum ∧
  q1.questionText = q2.questionText ∧ q1.category = q2.category ∧
  q1.difficulty = q2.difficulty ∧ q1.options = q2.options

theorem sanitize_eq_of_visibleEq {q1 q2 : MCQQuestion} (h : VisibleEq q1 q2) :
    sanitizeMCQQuestion q1 = sanitizeMCQQuestion q2 := by
  obtain ⟨h1, h2, h3, h4, h5, h6⟩ := h
  simp [sanitizeMCQQuestion, h1, h2, h3, h4, h5, h6]

theorem map_sanitize_eq_of_forall2 {l1 l2 : List MCQQuestion}
    (h : List.Forall₂ VisibleEq l1 l2) :
    l1.map sanitizeMCQQuestion = l2.map sanitizeMCQQuestion := by
  induction h with
  | nil => rfl
  | cons h _ ih => simp [sanitize_eq_of_visibleEq h, ih]

/-- Claim C8: `getTodayQuestions` answers only with the sanitized question
fields (`id`, `questionNum`, `questionText`, `category`, `difficulty`,
`options` — the response type `PublicMCQQuestion` cannot carry
`correctOption` or `explanation`), and two database states that differ only
in the `correctOption` and `explanation` values of today's questions receive
identical responses. -/
theorem getTodayQuestions_noninterference (m1 m2 : DailyMCQ)
    (hid : m1.id = m2.id) (htl : m1.timeLimit = m2.timeLimit)
    (htm : m1.totalMarks = m2.totalMarks)
    (hq : List.Forall₂ VisibleEq m1.questions m2.questions) :
    getTodayQuestions (some m1) = getTodayQuestions (some m2) := by
  simp [getTodayQuestions, hid, htl, htm, map_sanitize_eq_of_forall2 hq]

/-- Claim C8, witness: two concrete states disagreeing exactly on
`correctOption` and `explanation` get the same response. -/
theorem getTodayQuestions_noninterference_witness :
    getTodayQuestions
        (some ⟨7, 600, 20, 1, [⟨1, 1, "Q1", "History", "Easy", ["A", "B"], "A", "expl1"⟩]⟩) =
      getTodayQuestions
        (some ⟨7, 600, 20, 1, [⟨1, 1, "Q1", "History", "Easy", ["A", "B"], "B", "expl2"⟩]⟩) :=
  getTodayQuestions_noninterference _ _ rfl rfl rfl
    (List.Forall₂.cons ⟨rfl, rfl, rfl, rfl, rfl, rfl⟩ List.Forall₂.nil)

theorem submitMCQ_already_completed (u : Nat) (m : DailyMCQ)
    (a : Option (List AnswerInput)) (tt : Option Nat) (now : Int)
    (t : List MCQAttempt)
    (h : ((findUniqueRow mcqAttemptKey (u, m.id) t).bind (·.completedAt)).isSome = true) :
    submitMCQ u (some m) a tt now t =
      (.err ⟨400, "error", "You have already submitted today\'s MCQ"⟩, t) := by
  rw [submitMCQ.eq_def]
  simp [h]

theorem submitMCQ_ok_of_not_completed (u : Nat) (m : DailyMCQ)
    (a : Option (List AnswerInput)) (tt : Option Nat) (now : Int)
    (t : List MCQAttempt)
    (h : (findUniqueRow mcqAttemptKey (u, m.id) t).bind (·.completedAt) = none) :
    ∃ att, (submitMCQ u (some m) a tt now t).1 = .ok att := by
  rw [submitMCQ.eq_def]
  simp [h]

theorem submitMCQ_completedAt_after (u : Nat) (m : DailyMCQ)
    (a : Option (List AnswerInput)) (tt : Option Nat) (now : Int)
    (t : List MCQAttempt)
    (h : (findUniqueRow mcqAttemptKey (u, m.id) t).bind (·.completedAt) = none) :
    (findUniqueRow mcqAttemptKey (u, m.id)
        (submitMCQ u (some m) a tt now t).2).bind (·.completedAt) = some now := by
  rw [submitMCQ.eq_def]
  simp only [h, Option.isSome_none, Bool.false_eq_true, if_false]
  rw [findUniqueRow_upsertRow mcqAttemptKey (u, m.id)
    (mcqAttemptCreate u m a tt now) (mcqAttemptUpdate m a tt now)
    rfl (fun r => rfl) t]
  cases findUniqueRow mcqAttemptKey (u, m.id) t <;> rfl

/-- Claim C3: once a first `submitMCQ` call for today's MCQ has completed
(no completed attempt existed, so it succeeded and stored `completedAt`),
a second call returns HTTP 400 with the error envelope and leaves the
attempt table — including the stored first attempt — unchanged. -/
theorem submitMCQ_second_submission_rejected (u : Nat) (m : DailyMCQ)
    (a1 a2 : Option (List AnswerInput)) (t1 t2 : Option Nat) (now1 now2 : Int)
    (t0 : List MCQAttempt)
    (h : (findUniqueRow mcqAttemptKey (u, m.id) t0).bind (·.completedAt) = none) :
    (∃ att, (submitMCQ u (some m) a1 t1 now1 t0).1 = .ok att) ∧
    submitMCQ u (some m) a2 t2 now2 (submitMCQ u (some m) a1 t1 now1 t0).2 =
      (.err ⟨400, "error", "You have already submitted today\'s MCQ"⟩,
        (submitMCQ u (some m) a1 t1 now1 t0).2) := by
  refine ⟨submitMCQ_ok_of_not_completed u m a1 t1 now1 t0 h, ?_⟩
  apply submitMCQ_already_completed
  rw [submitMCQ_completedAt_after u m a1 t1 now1 t0 h]
  rfl

/-- Claim C3, witness: a concrete MCQ submitted twice by user 1. -/
theorem submitMCQ_second_submission_rejected_witness :
    (∃ att, (submitMCQ 1
        (some ⟨4, 600, 20, 1, [⟨1, 1, "Q1", "History", "Easy", ["A", "B"], "A", "e"⟩]⟩)
        (some [⟨1, some "A", some 30⟩]) (some 30) 1000 []).1 = .ok att) ∧
    submitMCQ 1
        (some ⟨4, 600, 20, 1, [⟨1, 1, "Q1", "History", "Easy", ["A", "B"], "A", "e"⟩]⟩)
        (some [⟨1, some "B", some 10⟩]) (some 10) 2000
        (submitMCQ 1
          (some ⟨4, 600, 20, 1, [⟨1, 1, "Q1", "History", "Easy", ["A", "B"], "A", "e"⟩]⟩)
          (some [⟨1, some "A", some 30⟩]) (some 30) 1000 []).2 =
      (.err ⟨400, "error", "You have already submitted today\'s MCQ"⟩,
        (submitMCQ 1
          (some ⟨4, 600, 20, 1, [⟨1, 1, "Q1", "History", "Easy", ["A", "B"], "A", "e"⟩]⟩)
          (some [⟨1, some "A", some 30⟩]) (some 30) 1000 []).2) :=
  submitMCQ_second_submission_rejected 1
    ⟨4, 600, 20, 1, [⟨1, 1, "Q1", "History", "Easy", ["A", "B"], "A", "e"⟩]⟩
    (some [⟨1, some "A", some 30⟩]) (some [⟨1, some "B", some 10⟩])
    (some 30) (some 10) 1000 2000 [] rfl

theorem submitMCQ_preserves_uniqueKeys (u : Nat) (m : Option DailyMCQ)
    (a : Option (List AnswerInput)) (tt : Option Nat) (now : Int)
    (t : List MCQAttempt) (h : UniqueKeys mcqAttemptKey t) :
    UniqueKeys mcqAttemptKey (submitMCQ u m a tt now t).2 := by
  rw [submitMCQ.eq_def]
  match m with
  | none => exact h
  | some m =>
    dsimp only
    by_cases hc :
      ((findUniqueRow mcqAttemptKey (u, m.id) t).bind (·.completedAt)).isSome = true
    · rw [if_pos hc]
      exact h
    · rw [if_neg hc]
      exact upsertRow_uniqueKeys mcqAttemptKey (u, m.id)
        (mcqAttemptCreate u m a tt now) (mcqAttemptUpdate m a tt now)
        rfl (fun r => rfl) h

theorem submitTextAnswer_preserves_uniqueKeys (u : Nat) (a : Option String)
    (q : Option MainsQuestion) (fid : Nat) (now : Int) (db : MainsDB)
    (h : UniqueKeys mainsAttemptKey db.attempts) :
    UniqueKeys mainsAttemptKey (submitTextAnswer u a q fid now db).2.attempts := by
  rw [submitTextAnswer.eq_def]
  by_cases hv : invalidAnswerText a = true
  · rw [if_pos hv]
    exact h
  · rw [if_neg hv]
    match q with
    | none => exact h
    | some q =>
      dsimp only
      exact upsertRow_uniqueKeys mainsAttemptKey (u, q.id)
        (mainsAttemptCreate u q (a.getD "") fid now)
        (mainsAttemptUpdate (a.getD "") now) rfl (fun r => rfl) h

/-- Claim C4: from any state in which each attempt table has at most one row
per unique key (in particular the empty state), any sequence of submit-handler
calls — `submitMCQ` and `submitTextAnswer`, which write attempts only through
upserts on the per-user unique key — leaves at most one `MCQAttempt` row per
`(userId, dailyMcqId)` and at most one `MainsAttempt` row per
`(userId, questionId)`. -/
theorem submit_sequences_keep_unique_attempts (ops : List SubmitOp)
    (s : BackendState)
    (h1 : UniqueKeys mcqAttemptKey s.mcqAttempts)
    (h2 : UniqueKeys mainsAttemptKey s.mains.attempts) :
    UniqueKeys mcqAttemptKey (applySubmitOps ops s).mcqAttempts ∧
    UniqueKeys mainsAttemptKey (applySubmitOps ops s).mains.attempts := by
  induction ops generalizing s with
  | nil => exact ⟨h1, h2⟩
  | cons op ops ih =>
    rw [applySubmitOps]
    cases op with
    | mcq u m a tt now =>
      exact ih _ (submitMCQ_preserves_uniqueKeys u m a tt now _ h1) h2
    | text u a q fid now =>
      exact ih _ h1 (submitTextAnswer_preserves_uniqueKeys u a q fid now _ h2)

/-- Claim C4, witness: two resubmissions of the same daily MCQ and the same
mains question, starting from the empty state. -/
theorem submit_sequences_keep_unique_attempts_witness :
    UniqueKeys mcqAttemptKey (applySubmitOps
        [.mcq 1 (some ⟨4, 600, 20, 1, []⟩) none none 1000,
         .text 1 (some "my answer") (some ⟨3, "Polity", 15⟩) 9 1000,
         .text 1 (some "revised answer") (some ⟨3, "Polity", 15⟩) 10 2000]
        ⟨[], ⟨[], [], []⟩⟩).mcqAttempts ∧
    UniqueKeys mainsAttemptKey (applySubmitOps
        [.mcq 1 (some ⟨4, 600, 20, 1, []⟩) none none 1000,
         .text 1 (some "my answer") (some ⟨3, "Polity", 15⟩) 9 1000,
         .text 1 (some "revised answer") (some ⟨3, "Polity", 15⟩) 10 2000]
        ⟨[], ⟨[], [], []⟩⟩).mains.attempts :=
  submit_sequences_keep_unique_attempts _ ⟨[], ⟨[], [], []⟩⟩
    List.Pairwise.nil List.Pairwise.nil

theorem countSubmits_cons (op : EvalOp) (ops : List EvalOp) :
    countSubmits (op :: ops) =
      countSubmits ops + (match op with | .submit _ _ => 1 | .fire _ _ => 0) := by
  cases op <;> simp [countSubmits, List.filter_cons]

theorem countFires_cons (op : EvalOp) (ops : List EvalOp) :
    countFires (op :: ops) =
      countFires ops + (match op with | .submit _ _ => 0 | .fire _ _ => 1) := by
  cases op <;> simp [countFires, List.filter_cons]

theorem evalTrace_counts (ops : List EvalOp) :
    ∀ (s s' : EvalTraceState), evalTrace ops s = some s' →
      s.pendingTimers + countSubmits ops = s'.pendingTimers + countFires ops := by
  induction ops with
  | nil =>
    intro s s' h
    rw [evalTrace] at h
    cases h
    simp [countSubmits, countFires]
  | cons op ops ih =>
    intro s s' h
    rw [evalTrace] at h
    rcases hstep : evalStep op s with _ | s1 <;> rw [hstep] at h
    · cases h
    · have h2 := ih s1 s' h
      rw [countSubmits_cons, countFires_cons]
      cases op with
      | submit aid marks =>
        rw [evalStep] at hstep
        cases hstep
        dsimp only at h2 ⊢
        omega
      | fire score now =>
        rw [evalStep] at hstep
        rcases hr : s.record with _ | r <;> rw [hr] at hstep
        · cases hstep
        · rcases hn : s.pendingTimers with _ | n <;> rw [hn] at hstep
          · cases hstep
          · cases hstep
            dsimp only at h2 ⊢
            omega

theorem statusRank_le_two (x : Option String) : statusRank x ≤ 2 := by
  match x with
  | none => exact Nat.zero_le 2
  | some s =>
    rw [statusRank]
    split
    · exact le_refl 2
    · split <;> omega

/-- Claim C5: the evaluation status only moves along
pending → evaluating → completed: submitting (re)sets the record to
`"evaluating"`, the delayed callback is the only step that yields
`"completed"` and never lowers the rank, every callback fire is backed by an
earlier submission (no retry), and `getEvaluationStatus` reports
`isComplete` exactly when the status is `"completed"` and `"pending"` when no
record exists. -/
theorem evaluation_status_lifecycle :
    (∀ (attemptId marks : Nat) (r : Option MainsEvaluation),
        (startEvaluationRecord attemptId marks r).status = "evaluating") ∧
    (∀ (score : ℚ) (now : Int) (r : MainsEvaluation),
        (completeEvaluationRecord score now r).status = "completed") ∧
    (∀ (op : EvalOp) (s s' : EvalTraceState), evalStep op s = some s' →
        (evalStateStatus s' = some "evaluating" ∧
          ∃ aid marks, op = .submit aid marks) ∨
        (evalStateStatus s' = some "completed" ∧
          statusRank (evalStateStatus s) ≤ statusRank (evalStateStatus s'))) ∧
    (∀ (ops : List EvalOp) (s' : EvalTraceState),
        evalTrace ops ⟨none, 0⟩ = some s' → countFires ops ≤ countSubmits ops) ∧
    (∀ (att : MainsAttempt) (ev : Option MainsEvaluation),
        (getEvaluationStatus att ev).isComplete = true ↔
          ev.map (·.status) = some "completed") ∧
    (∀ att : MainsAttempt,
        (getEvaluationStatus att none).evaluationStatus = "pending") := by
  refine ⟨?_, ?_, ?_, ?_, ?_, ?_⟩
  · intro attemptId marks r
    cases r <;> rfl
  · intro score now r
    rfl
  · intro op s s' h
    cases op with
    | submit aid marks =>
      rw [evalStep] at h
      cases h
      left
      refine ⟨?_, aid, marks, rfl⟩
      cases hr : s.record <;> rfl
    | fire score now =>
      rw [evalStep] at h
      rcases hr : s.record with _ | r <;> rw [hr] at h
      · cases h
      · rcases hn : s.pendingTimers with _ | n <;> rw [hn] at h
        · cases h
        · cases h
          right
          refine ⟨rfl, ?_⟩
          have hsr : statusRank (evalStateStatus
              ⟨some (completeEvaluationRecord score now r), n⟩) = 2 := by
            simp [statusRank, evalStateStatus, completeEvaluationRecord]
          rw [hsr]
          exact statusRank_le_two _
  · intro ops s' h
    have hc := evalTrace_counts ops ⟨none, 0⟩ s' h
    dsimp only at hc
    omega
  · intro att ev
    simp [getEvaluationStatus]
  · intro att
    rfl

/-- Claim C5, witness: one submission followed by its callback, plus the
status readouts at concrete records. -/
theorem evaluation_status_lifecycle_witness :
    (startEvaluationRecord 1 10 none).status = "evaluating" ∧
    (completeEvaluationRecord 7 100 ⟨1, 0, 10, "evaluating", none⟩).status =
      "completed" ∧
    ((evalStateStatus ⟨some (startEvaluationRecord 1 10 none), 1⟩ =
        some "evaluating" ∧
      ∃ aid marks, EvalOp.submit 1 10 = EvalOp.submit aid marks) ∨
      (evalStateStatus ⟨some (startEvaluationRecord 1 10 none), 1⟩ =
        some "completed" ∧
        statusRank (evalStateStatus ⟨none, 0⟩) ≤
          statusRank (evalStateStatus ⟨some (startEvaluationRecord 1 10 none), 1⟩))) ∧
    countFires [EvalOp.submit 1 10, EvalOp.fire 7 100] ≤
      countSubmits [EvalOp.submit 1 10, EvalOp.fire 7 100] ∧
    ((getEvaluationStatus ⟨5, 1, 3, some "text", 1, 50⟩
        (some ⟨5, 7, 10, "completed", some 100⟩)).isComplete = true ↔
      (some ⟨5, 7, 10, "completed", some 100⟩ : Option MainsEvaluation).map
        (·.status) = some "completed") ∧
    (getEvaluationStatus ⟨5, 1, 3, some "text", 1, 50⟩ none).evaluationStatus =
      "pending" :=
  ⟨evaluation_status_lifecycle.1 1 10 none,
   evaluation_status_lifecycle.2.1 7 100 ⟨1, 0, 10, "evaluating", none⟩,
   evaluation_status_lifecycle.2.2.1 (.submit 1 10) ⟨none, 0⟩
     ⟨some (startEvaluationRecord 1 10 none), 1⟩ rfl,
   evaluation_status_lifecycle.2.2.2.1 [.submit 1 10, .fire 7 100]
     ⟨some (completeEvaluationRecord 7 100 (startEvaluationRecord 1 10 none)), 0⟩ rfl,
   evaluation_status_lifecycle.2.2.2.2.1 ⟨5, 1, 3, some "text", 1, 50⟩
     (some ⟨5, 7, 10, "completed", some 100⟩),
   evaluation_status_lifecycle.2.2.2.2.2 ⟨5, 1, 3, some "text", 1, 50⟩⟩

end Upsc
